import Mathlib

/-!
Verification of the event-admission, messaging, room-creation and
state-resolution behaviour of the synapsecode homeserver.

The Python handlers are embedded shallowly:

* `FEvent` models the JSON event dicts flowing through
  `FederationHandler` (`src/handlers/federation.py`); optional fields
  mirror `dict.get` / `in` checks on the Python dict.
* The datastore used by the handlers is a stub in `src/storage`
  (`store_event` returns `True` and there is no `get_event_by_id`),
  so the store is modelled from the spec (§4.1 EventStore): an
  append-only list of events keyed by `event_id`.
* `event_auth.check_auth_rules_for_event` is an external collaborator
  that is absent from the sources; it is supplied as a function in
  `FedEnv` and may also fail (raise), which the handler code catches.
* Python `try`/`except` blocks are modelled with `Except` together
  with the total catch `tryOr`.
-/

namespace Synapse

/-- Exceptions raised by collaborators (auth engine, EDU handler). -/
abbrev Err := String

/-- A federation event dict.  Fields that the Python code accesses via
`event.get`/`in` are `Option`s; `content` is an opaque association list. -/
structure FEvent where
  event_id : Option String
  etype : Option String
  room_id : Option String
  sender : Option String
  origin_server_ts : Option Int
  origin : Option String
  content : List (String × String)
  deriving DecidableEq

/-- Modelled from the spec: the EventStore (§4.1) is stubbed in
`src/storage/__init__.py` (its `store_event` merely returns True), so it
is modelled as durable append-only storage of events keyed by event ID. -/
abbrev EventStore := List FEvent

/-- Modelled from the spec: `EventStore.Get(event_id)` — first stored
event with the given `event_id`. -/
def get_event_by_id (store : EventStore) (eid : String) : Option FEvent :=
  store.find? (fun e => e.event_id == some eid)

/-- Modelled from the spec: `EventStore.Persist(event)` — append the
event record. -/
def store_event (store : EventStore) (e : FEvent) : EventStore :=
  store ++ [e]

/-- An ephemeral data unit; opaque to the model (the federation handler
has no `handle_incoming_edu` method, so processing one always raises). -/
abbrev Edu := String

/-- External collaborators of `FederationHandler`: the auth engine
(`hs.get_event_auth().check_auth_rules_for_event`) and the per-EDU
processing hook; both may raise, which the callers catch. -/
structure FedEnv where
  check_auth_rules_for_event : FEvent → Except Err Bool
  handle_incoming_edu : Edu → Except Err Unit

/-- Python `try: body except: fallback` for an `Except`-valued body. -/
def tryOr {α : Type} (body : Except Err α) (fallback : α) : α :=
  match body with
  | Except.ok a => a
  | Except.error _ => fallback

/-- The required-field loop of `FederationHandler._validate_event`
(federation.py lines 106-111): `event_id`, `type`, `room_id`, `sender`,
`origin_server_ts` must all be present. -/
def hasRequiredFields (e : FEvent) : Bool :=
  e.event_id.isSome && e.etype.isSome && e.room_id.isSome &&
    e.sender.isSome && e.origin_server_ts.isSome

/-- The body of the `try` in `_validate_event`: missing fields return
`False`; otherwise the auth-engine result is returned (its exceptions
propagate to the surrounding `except`). -/
def validate_event_checks (env : FedEnv) (e : FEvent) : Except Err Bool :=
  if hasRequiredFields e then env.check_auth_rules_for_event e
  else Except.ok false

/-- `FederationHandler._validate_event` (federation.py lines 95-123):
the `except` clause turns any exception into `False`. -/
def validate_event (env : FedEnv) (e : FEvent) : Bool :=
  tryOr (validate_event_checks env e) false

/-- The body of the `try` in `FederationHandler.handle_incoming_event`
(federation.py lines 396-417): origin mismatch → `False`; failed
validation → `False`; already-stored event id → `True`; otherwise the
event is stored and `True` is returned.  The `event["event_id"]`
subscript raises `KeyError` when the field is absent (unreachable after
validation succeeds). -/
def handle_incoming_event_try (env : FedEnv) (store : EventStore)
    (origin : String) (e : FEvent) : Except Err (Bool × EventStore) :=
  if e.origin ≠ some origin then Except.ok (false, store)
  else if validate_event env e = false then Except.ok (false, store)
  else
    match e.event_id with
    | none => Except.error "KeyError: event_id"
    | some eid =>
      match get_event_by_id store eid with
      | some _ => Except.ok (true, store)
      | none => Except.ok (true, store_event store e)

/-- `FederationHandler.handle_incoming_event` (federation.py lines
382-421): the surrounding `except` turns any exception into `False`
with the store untouched. -/
def handle_incoming_event (env : FedEnv) (store : EventStore)
    (origin : String) (e : FEvent) : Bool × EventStore :=
  tryOr (handle_incoming_event_try env store origin e) (false, store)

/-- Per-PDU outcome recorded by `FederationAPI.handle_send_transaction`:
either the boolean from the handler or the message of a caught
exception. -/
inductive PduResult where
  | handled (b : Bool)
  | failed (msg : Err)
  deriving DecidableEq

/-- Typed response of `FederationAPI.handle_send_transaction`: an
errcode body with HTTP status, or the per-PDU result map with 200. -/
inductive TxnResponse where
  | errcode (code : String) (status : Nat)
  | pduResults (results : List (String × PduResult)) (status : Nat)
  deriving DecidableEq

/-- A `/send/{txnId}` transaction body: `pdus` and `edus` lists
(`request_data.get('pdus', [])` / `.get('edus', [])`). -/
structure Transaction where
  pdus : List FEvent
  edus : List Edu

/-- The PDU loop of `handle_send_transaction` (api/federation.py lines
74-87): each PDU is handled in its own `try`, its result recorded under
`pdu.get('event_id', '')`, threading the store through. -/
def process_pdus (env : FedEnv) (origin : String) :
    List FEvent → EventStore → List (String × PduResult) × EventStore
  | [], store => ([], store)
  | pdu :: rest, store =>
    match handle_incoming_event env store origin pdu with
    | (b, store2) =>
      match process_pdus env origin rest store2 with
      | (results, store3) =>
        ((pdu.event_id.getD "", PduResult.handled b) :: results, store3)

/-- The EDU loop (api/federation.py lines 89-97): each EDU is processed
in its own `try` whose `except` merely logs, so failures leave no
trace.  (`FederationHandler` has no `handle_incoming_edu` method, so in
the Python code every iteration raises `AttributeError` and is
swallowed here.) -/
def process_edus (env : FedEnv) (edus : List Edu) : Unit :=
  edus.foldl (fun u edu => tryOr (env.handle_incoming_edu edu) u) ()

/-- The body of the outer `try` of
`FederationAPI.handle_send_transaction` (api/federation.py lines
62-103): empty origin → `M_FORBIDDEN` 403, otherwise the PDU and EDU
loops run and the per-PDU results are returned with 200. -/
def handle_send_transaction_try (env : FedEnv) (store : EventStore)
    (origin : String) (txn : Transaction) :
    Except Err (TxnResponse × EventStore) :=
  if origin = "" then Except.ok (TxnResponse.errcode "M_FORBIDDEN" 403, store)
  else
    match process_pdus env origin txn.pdus store with
    | (results, store2) =>
      match process_edus env txn.edus with
      | () => Except.ok (TxnResponse.pduResults results 200, store2)

/-- `FederationAPI.handle_send_transaction` (api/federation.py lines
45-110): the outer `except` turns any escaped exception into the
`M_UNKNOWN` 500 errcode response. -/
def handle_send_transaction (env : FedEnv) (store : EventStore)
    (origin : String) (txn : Transaction) : TxnResponse × EventStore :=
  tryOr (handle_send_transaction_try env store origin txn)
    (TxnResponse.errcode "M_UNKNOWN" 500, store)

/-- Whether an `Except` computation completed without an exception. -/
def exceptOk {α : Type} : Except Err α → Bool
  | Except.ok _ => true
  | Except.error _ => false

/-! ## MessageHandler (`src/handlers/message.py`)

Client-side events built by the event-builder collaborator.  The
datastore methods used here (`get_room_membership`,
`get_event_by_txn_id`, `store_txn_id_mapping`, `get_user_power_level`,
`get_room_redact_level`, `redact_event`) do not exist on the stub
`DataStore`, so they are modelled from the spec as the state of the
store (§3-§4.1): membership, per-user power levels and the room redact
threshold are read-only lookups, events and transaction-ID mappings are
append-only tables. -/

/-- A client event as assembled by `event_builder.create_event` from
the keyword arguments the message handler passes it. -/
structure MEvent where
  event_type : String
  room_id : String
  sender : String
  content : List (String × String)
  event_id : String
  txn_id : Option String
  redacts : Option String
  redacted_by : Option String
  deriving DecidableEq

/-- Modelled from the spec: the datastore as seen by `MessageHandler`.
`membership user room`, `power_level user room` and
`redact_level room` model the stub methods `get_room_membership`,
`get_user_power_level` and `get_room_redact_level`; `txn_map` keys
`(sender, room, txn_id)` to the event id stored for it; `events` is the
append-only event table. -/
structure MStore where
  membership : String → String → Option String
  power_level : String → String → Int
  redact_level : String → Int
  txn_map : List ((String × String × String) × String)
  events : List MEvent

/-- Modelled from the spec: `get_event_by_txn_id(sender, room, txn)` —
the event id previously recorded for this transaction. -/
def get_event_by_txn_id (store : MStore) (sender room txn : String) :
    Option String :=
  (store.txn_map.find? (fun p => p.1 == (sender, room, txn))).map Prod.snd

/-- Modelled from the spec: `get_event_by_id` on the client-event
table. -/
def m_get_event_by_id (store : MStore) (eid : String) : Option MEvent :=
  store.events.find? (fun e => e.event_id == eid)

/-- Modelled from the spec: `redact_event(target_id, redaction_id)` —
mark every stored copy of the target event as redacted by the redaction
event. -/
def m_redact_event (store : MStore) (target_id redaction_id : String) :
    MStore :=
  { store with
    events := store.events.map (fun e =>
      if e.event_id == target_id then { e with redacted_by := some redaction_id }
      else e) }

/-- `MessageHandler._generate_event_id` (message.py lines 43-51):
`token` stands for the value of `secrets.token_urlsafe(32)` — fresh
randomness, not derived from any event content. -/
def message_generate_event_id (hostname token : String) : String :=
  "$" ++ token ++ ":" ++ hostname

/-- `FederationHandler._generate_event_id` (federation.py lines
303-311): returns the raw `secrets.token_urlsafe(32)` value; the caller
(`_create_invite_event`, line 295) wraps it as
`$<localpart>:<hostname>`. -/
def federation_generate_event_id (token : String) : String :=
  token

/-- Python truthiness of an optional transaction id (`if txn_id:`):
`None` and the empty string are falsy. -/
def txnTruthy : Option String → Bool
  | none => false
  | some t => t ≠ ""

/-- `MessageHandler.send_message` (message.py lines 53-110).  `token`
models the randomness consumed by `_generate_event_id`.  Flow: a sender
who is not joined raises `ValueError`; a truthy `txn_id` with an
existing mapping short-circuits to the recorded event id; otherwise a
fresh event is built, stored, and (for truthy `txn_id`) the mapping is
recorded. -/
def send_message (store : MStore) (hostname token : String)
    (room_id sender_id message_type : String)
    (content : List (String × String)) (txn_id : Option String) :
    Except Err (String × MStore) :=
  if store.membership sender_id room_id ≠ some "join" then
    Except.error ("ValueError: User " ++ sender_id ++ " is not in room " ++ room_id)
  else
    match
      (if txnTruthy txn_id then
        get_event_by_txn_id store sender_id room_id (txn_id.getD "")
      else none) with
    | some eid => Except.ok (eid, store)
    | none =>
      let event_id := message_generate_event_id hostname token
      let ev : MEvent :=
        { event_type := "m.room.message", room_id := room_id,
          sender := sender_id,
          content := ("msgtype", message_type) :: content,
          event_id := event_id, txn_id := txn_id,
          redacts := none, redacted_by := none }
      let store2 := { store with events := store.events ++ [ev] }
      let store3 :=
        if txnTruthy txn_id then
          { store2 with
            txn_map := store2.txn_map ++
              [((sender_id, room_id, txn_id.getD ""), event_id)] }
        else store2
      Except.ok (event_id, store3)

/-- The event id produced by a successful send, `none` on a raised
exception. -/
def sent_event_id (r : Except Err (String × MStore)) : Option String :=
  (Except.toOption r).map Prod.fst

/-- `MessageHandler.redact_message` (message.py lines 278-337).  Flow:
unknown target raises; a sender who neither owns the target nor reaches
the room's redact power level raises; otherwise a `m.room.redaction`
event is built and stored and the target is marked redacted. -/
def redact_message (store : MStore) (hostname token : String)
    (room_id sender_id target_event_id : String) (reason : Option String)
    (txn_id : Option String) : Except Err (String × MStore) :=
  match m_get_event_by_id store target_event_id with
  | none => Except.error ("ValueError: Event " ++ target_event_id ++ " not found")
  | some target =>
    if target.sender ≠ sender_id ∧
        store.power_level sender_id room_id < store.redact_level room_id then
      Except.error "ValueError: Insufficient permissions to redact message"
    else
      let event_id := message_generate_event_id hostname token
      let content := match reason with
        | some r => [("reason", r)]
        | none => []
      let ev : MEvent :=
        { event_type := "m.room.redaction", room_id := room_id,
          sender := sender_id, content := content, event_id := event_id,
          txn_id := txn_id, redacts := some target_event_id,
          redacted_by := none }
      let store2 := { store with events := store.events ++ [ev] }
      let store3 := m_redact_event store2 target_event_id event_id
      Except.ok (event_id, store3)

/-! ## RoomHandler power-level defaults (`src/handlers/room.py`) -/

/-- The top-level keys of the `m.room.power_levels` content dict built
by `RoomHandler._create_power_levels_event`. -/
structure PowerLevelsContent where
  ban : Int
  events : List (String × Int)
  events_default : Int
  invite : Int
  kick : Int
  redact : Int
  state_default : Int
  users : List (String × Int)
  users_default : Int
  notifications_room : Int
  deriving DecidableEq

/-- The hardcoded content dict of `_create_power_levels_event`
(room.py lines 208-232). -/
def default_power_levels_content (creator : String) : PowerLevelsContent :=
  { ban := 50,
    events :=
      [("m.room.name", 50), ("m.room.power_levels", 100),
       ("m.room.history_visibility", 100), ("m.room.canonical_alias", 50),
       ("m.room.avatar", 50), ("m.room.tombstone", 100),
       ("m.room.server_acl", 100), ("m.room.encryption", 100)],
    events_default := 0, invite := 50, kick := 50, redact := 50,
    state_default := 50, users := [(creator, 100)], users_default := 0,
    notifications_room := 50 }

/-- An optional replacement for each top-level key, mirroring
`content.update(override_content)` (room.py lines 234-235): a key
present in the override replaces the default value wholesale. -/
structure PLOverride where
  ban : Option Int
  events : Option (List (String × Int))
  events_default : Option Int
  invite : Option Int
  kick : Option Int
  redact : Option Int
  state_default : Option Int
  users : Option (List (String × Int))
  users_default : Option Int
  notifications_room : Option Int

/-- `dict.update` of the override onto the default content. -/
def apply_override (c : PowerLevelsContent) (o : PLOverride) :
    PowerLevelsContent :=
  { ban := o.ban.getD c.ban, events := o.events.getD c.events,
    events_default := o.events_default.getD c.events_default,
    invite := o.invite.getD c.invite, kick := o.kick.getD c.kick,
    redact := o.redact.getD c.redact,
    state_default := o.state_default.getD c.state_default,
    users := o.users.getD c.users,
    users_default := o.users_default.getD c.users_default,
    notifications_room := o.notifications_room.getD c.notifications_room }

/-- The state event returned by `_create_power_levels_event` via the
event builder. -/
structure PLEvent where
  event_type : String
  room_id : String
  sender : String
  content : PowerLevelsContent
  state_key : String
  deriving DecidableEq

/-- `RoomHandler._create_power_levels_event` (room.py lines 195-243). -/
def create_power_levels_event (room_id creator : String)
    (override_content : Option PLOverride) : PLEvent :=
  let content := match override_content with
    | none => default_power_levels_content creator
    | some o => apply_override (default_power_levels_content creator) o
  { event_type := "m.room.power_levels", room_id := room_id,
    sender := creator, content := content, state_key := "" }

/-! ## StateResolver (spec §4.3)

Modelled from the spec: the repository contains no StateResolver —
the design notes (§9) record that federation/state handling exists only
as thin dict-passing stubs — so the resolver is modelled from the
spec's algorithm: partition slots into unconflicted and conflicted,
pass unconflicted slots through, build the auth difference of the
conflicted events, order conflicted events in reverse topological order
of their `auth_events` dependencies — an event never preceding an event
it depends on, higher sender power winning among independent events,
with a lexicographic event-id tie-break — and replay them through the
auth engine starting from the unconflicted state.  The auth engine and
the
"sender power level as of the event's own auth chain" are the pure
collaborators of §4.2/§4.3 and are supplied as function parameters. -/

/-- A state slot `(type, state_key)`, ordered lexicographically. -/
abbrev Slot := Lex (String × String)

/-- One input state set: a mapping from slots to winning event ids,
as an association list. -/
abbrev StateSet := List (Slot × String)

/-- The resolved state: each slot's winning event id, if any. -/
abbrev ResolvedState := Slot → Option String

/-- Modelled from the spec: the event record consulted during
resolution — sender, type, optional state key and claimed auth
events (§3). -/
structure REvent where
  sender : String
  etype : String
  state_key : Option String
  auth_events : List String
  deriving DecidableEq

/-- The locally known events, keyed by event id. -/
abbrev EventMap := List (String × REvent)

/-- Slot lookup in one input state set. -/
def lookupSlot (st : StateSet) (s : Slot) : Option String :=
  (st.find? (fun p => p.1 == s)).map Prod.snd

/-- All slots mentioned by any input state set. -/
def slotsOf (sets : List StateSet) : Finset Slot :=
  (sets.flatMap (fun st => st.map Prod.fst)).toFinset

/-- The distinct winning event ids the input sets propose for a slot. -/
def valuesAt (sets : List StateSet) (s : Slot) : Finset String :=
  (sets.filterMap (fun st => lookupSlot st s)).toFinset

/-- Step 1-2 of the algorithm: a slot on which all proposing input sets
agree passes its unique winner through; conflicted slots start
unassigned. -/
def unconflictedState (sets : List StateSet) : ResolvedState := fun s =>
  match (valuesAt sets s).sort (· ≤ ·) with
  | [v] => some v
  | _ => none

/-- The slots on which the input sets disagree. -/
def conflictedSlots (sets : List StateSet) : Finset Slot :=
  (slotsOf sets).filter (fun s => (valuesAt sets s).card ≠ 1)

/-- The conflicting candidate events: every winner proposed for a
conflicted slot. -/
def conflictedEvents (sets : List StateSet) : Finset String :=
  (conflictedSlots sets).biUnion (fun s => valuesAt sets s)

/-- Events reachable from `e` through `auth_events`, with explicit
fuel (the chain cannot be longer than the event table). -/
def authChainFuel (events : EventMap) : Nat → String → Finset String
  | 0, e => {e}
  | n + 1, e =>
    insert e
      (match events.find? (fun p => p.1 == e) with
       | none => ∅
       | some p =>
         (p.2.auth_events.map (authChainFuel events n)).foldr (· ∪ ·) ∅)

/-- The full auth chain of an event over the known event table. -/
def authChain (events : EventMap) (e : String) : Finset String :=
  authChainFuel events events.length e

/-- Step 3: the auth difference — events in some conflicting event's
auth chain but not in all of them. -/
def authDifference (events : EventMap) (sets : List StateSet) : Finset String :=
  let conf := conflictedEvents sets
  (conf.biUnion (fun e => authChain events e)).filter
    (fun a => ¬ ∀ c ∈ conf, a ∈ authChain events c)

/-- The events of `remaining` that depend (via `auth_events`,
transitively) on no other event of `remaining` — the "independent"
events among which power decides. -/
def readyEvents (events : EventMap) (remaining : Finset String) :
    Finset String :=
  remaining.filter (fun e => ∀ d ∈ remaining, d ∈ authChain events e → d = e)

/-- Among a pool of mutually independent events, the winner: highest
sender power level first, final tie-break lexicographic on event id
(the minimum under the ascending lexicographic order on
`(-power, event_id)`). -/
def powerPick (power : String → Int) (pool : Finset String) :
    Option String :=
  (((pool.image (fun e => toLex ((-(power e), e) : Int × String))).sort
    (· ≤ ·)).map (fun p => (ofLex p).2)).head?

/-- One step of the ordering: emit, among the events none of whose
dependencies remain, the one that power (then event id) elects.  If no
event is ready — possible only on a cyclic `auth_events` table, which a
real auth DAG never is — the stall is broken deterministically by
electing over all remaining events. -/
def selectNext (events : EventMap) (power : String → Int)
    (remaining : Finset String) : Option String :=
  powerPick power
    (if readyEvents events remaining = ∅ then remaining
     else readyEvents events remaining)

/-- Step 4: reverse topological order with the power-aware tie-break —
an event is emitted only once every event it depends on (via
`auth_events`, within the conflicted set) has been emitted, and among
the independent candidates higher sender power wins, then the
lexicographically smaller event id.  `fuel` bounds the recursion by the
number of events to order. -/
def topoOrder (events : EventMap) (power : String → Int) :
    Nat → Finset String → List String
  | 0, _ => []
  | fuel + 1, remaining =>
    match selectNext events power remaining with
    | none => []
    | some e => e :: topoOrder events power fuel (remaining.erase e)

/-- The canonical replay order of the conflicted events: reverse
topological in the `auth_events` dependency relation, power-elected
among independent events, event-id tie-break. -/
def replayOrder (events : EventMap) (power : String → Int)
    (s : Finset String) : List String :=
  topoOrder events power s.card s

/-- Assign a slot's winner in the working state. -/
def updateState (st : ResolvedState) (s : Slot) (v : String) : ResolvedState :=
  fun s2 => if s2 = s then some v else st s2

/-- Step 5: replay the ordered conflicted events through the auth
engine, accepting an event into the working state only if it authorizes
against the state accumulated so far; events without a state key (step
6) never occupy a slot. -/
def replay (authorize : REvent → ResolvedState → Bool) (events : EventMap) :
    List String → ResolvedState → ResolvedState
  | [], st => st
  | e :: rest, st =>
    match events.find? (fun p => p.1 == e) with
    | none => replay authorize events rest st
    | some p =>
      if authorize p.2 st then
        match p.2.state_key with
        | some k =>
          replay authorize events rest (updateState st (toLex (p.2.etype, k)) e)
        | none => replay authorize events rest st
      else replay authorize events rest st

/-- Modelled from the spec: `StateResolver.Resolve(stateSets)`
(§4.3). -/
def Resolve (authorize : REvent → ResolvedState → Bool) (events : EventMap)
    (power : String → Int) (sets : List StateSet) : ResolvedState :=
  replay authorize events
    (replayOrder events power
      (conflictedEvents sets ∪ authDifference events sets))
    (unconflictedState sets)

/-! ## Helper lemmas and concrete fixtures -/

/-- Passing validation forces all required fields to be present. -/
theorem validate_true_required (env : FedEnv) (e : FEvent)
    (h : validate_event env e = true) : hasRequiredFields e = true := by
  by_contra hf
  rw [Bool.not_eq_true] at hf
  simp [validate_event, validate_event_checks, hf, tryOr] at h

/-- A structurally complete event whose declared origin is
`remote.example`. -/
def fixEvent : FEvent :=
  { event_id := some "$e1:remote.example", etype := some "m.room.message",
    room_id := some "!r:remote.example", sender := some "@u:remote.example",
    origin_server_ts := some 0, origin := some "remote.example", content := [] }

/-- A store that already holds `fixEvent`. -/
def fixStore : EventStore := [fixEvent]

/-- An environment whose auth engine rejects every event (and whose EDU
hook raises, as the missing Python method does). -/
def envAuthFalse : FedEnv :=
  { check_auth_rules_for_event := fun _ => Except.ok false,
    handle_incoming_edu := fun _ => Except.error "AttributeError" }

/-- An environment whose auth engine accepts every event. -/
def envAuthTrue : FedEnv :=
  { check_auth_rules_for_event := fun _ => Except.ok true,
    handle_incoming_edu := fun _ => Except.error "AttributeError" }

/-! ## Claims about `FederationHandler.handle_incoming_event` -/

/-- Claim C9: an incoming federation event whose declared `origin`
field differs from the server it was received from is rejected
(`handle_incoming_event` returns `False`) and the event store is left
unchanged. -/
theorem origin_mismatch_rejected (env : FedEnv) (store : EventStore)
    (origin : String) (e : FEvent) (h : e.origin ≠ some origin) :
    handle_incoming_event env store origin e = (false, store) := by
  simp [handle_incoming_event, handle_incoming_event_try, h, tryOr]

/-- Witness for C9: a concrete event declaring origin `remote.example`
delivered by `other.example` is rejected without a store change. -/
theorem origin_mismatch_rejected_witness :
    fixEvent.origin ≠ some "other.example" ∧
      handle_incoming_event envAuthTrue fixStore "other.example" fixEvent =
        (false, fixStore) :=
  ⟨by decide, origin_mismatch_rejected envAuthTrue fixStore "other.example"
    fixEvent (by decide)⟩

/-- Claim C5: an event missing any required field (`event_id`, `type`,
`room_id`, `sender`, `origin_server_ts`) fails validation and is
rejected by `handle_incoming_event` without being stored. -/
theorem malformed_event_rejected (env : FedEnv) (store : EventStore)
    (origin : String) (e : FEvent)
    (h : e.event_id = none ∨ e.etype = none ∨ e.room_id = none ∨
      e.sender = none ∨ e.origin_server_ts = none) :
    handle_incoming_event env store origin e = (false, store) := by
  have hv : validate_event env e = false := by
    rcases h with h | h | h | h | h <;>
      simp [validate_event, validate_event_checks, hasRequiredFields, h, tryOr]
  by_cases ho : e.origin = some origin
  · simp [handle_incoming_event, handle_incoming_event_try, ho, hv, tryOr]
  · simp [handle_incoming_event, handle_incoming_event_try, ho, tryOr]

/-- Witness for C5: a concrete event with no `sender` is rejected with
the store unchanged, even under an accepting auth engine. -/
theorem malformed_event_rejected_witness :
    ({ fixEvent with sender := none } : FEvent).sender = none ∧
      handle_incoming_event envAuthTrue fixStore "remote.example"
        { fixEvent with sender := none } = (false, fixStore) :=
  ⟨rfl, malformed_event_rejected envAuthTrue fixStore "remote.example"
    { fixEvent with sender := none } (Or.inr (Or.inr (Or.inr (Or.inl rfl))))⟩

/-- Claim C4: an event that fails the auth check inside validation is
never persisted — `handle_incoming_event` returns `False` and the
store is unchanged. -/
theorem unauthorized_event_not_persisted (env : FedEnv) (store : EventStore)
    (origin : String) (e : FEvent)
    (h : env.check_auth_rules_for_event e = Except.ok false) :
    handle_incoming_event env store origin e = (false, store) := by
  have hv : validate_event env e = false := by
    by_cases hf : hasRequiredFields e
    · simp [validate_event, validate_event_checks, hf, h, tryOr]
    · simp [validate_event, validate_event_checks, hf, tryOr]
  by_cases ho : e.origin = some origin
  · simp [handle_incoming_event, handle_incoming_event_try, ho, hv, tryOr]
  · simp [handle_incoming_event, handle_incoming_event_try, ho, tryOr]

/-- Witness for C4: under the rejecting auth engine a well-formed,
origin-matching event is refused with the store untouched. -/
theorem unauthorized_event_not_persisted_witness :
    envAuthFalse.check_auth_rules_for_event fixEvent = Except.ok false ∧
      handle_incoming_event envAuthFalse [] "remote.example" fixEvent =
        (false, []) :=
  ⟨rfl, unauthorized_event_not_persisted envAuthFalse [] "remote.example"
    fixEvent rfl⟩

/-- Counterexample to C2 as stated: `fixEvent` is already stored in
`fixStore`, yet re-submitting it does not "succeed without re-running
the auth check" — validation (including the auth check) runs before
the duplicate check, so under an auth engine that now rejects the
event, `handle_incoming_event` returns `False`. -/
theorem resubmit_runs_auth_counterexample :
    get_event_by_id fixStore "$e1:remote.example" = some fixEvent ∧
      fixEvent.event_id = some "$e1:remote.example" ∧
      (handle_incoming_event envAuthFalse fixStore "remote.example"
        fixEvent).1 = false := by
  refine ⟨by decide, rfl, ?_⟩
  decide

/-- Claim C2 (amended): re-submitting an already-persisted event does
not store a second record, but validation — auth check included — is
re-run before the duplicate check; when the event's origin matches and
it still passes validation, `handle_incoming_event` returns `True` and
leaves the store unchanged. -/
theorem resubmit_idempotent (env : FedEnv) (store : EventStore)
    (origin : String) (e : FEvent) (eid : String) (old : FEvent)
    (h1 : e.event_id = some eid) (h2 : get_event_by_id store eid = some old)
    (h3 : e.origin = some origin) (h4 : validate_event env e = true) :
    handle_incoming_event env store origin e = (true, store) := by
  simp [handle_incoming_event, handle_incoming_event_try, h1, h2, h3, h4, tryOr]

/-- Witness for C2 (amended): re-delivering the stored `fixEvent` under
an accepting auth engine yields `True` and the same one-record store. -/
theorem resubmit_idempotent_witness :
    fixEvent.event_id = some "$e1:remote.example" ∧
      get_event_by_id fixStore "$e1:remote.example" = some fixEvent ∧
      fixEvent.origin = some "remote.example" ∧
      validate_event envAuthTrue fixEvent = true ∧
      handle_incoming_event envAuthTrue fixStore "remote.example" fixEvent =
        (true, fixStore) :=
  ⟨rfl, by decide, rfl, by decide,
    resubmit_idempotent envAuthTrue fixStore "remote.example" fixEvent
      "$e1:remote.example" fixEvent rfl (by decide) rfl (by decide)⟩

/-- Claim C6: no exception escapes event admission — for every
collaborator behaviour, the body of
`FederationAPI.handle_send_transaction` completes with a typed response
(per-PDU result map or errcode body) and the body of
`FederationHandler.handle_incoming_event` completes with a boolean;
the surrounding `except` clauses are never needed in this model because
every throwing collaborator call is already caught further in. -/
theorem no_exception_escapes (env : FedEnv) (store : EventStore)
    (origin : String) (txn : Transaction) (e : FEvent) :
    exceptOk (handle_send_transaction_try env store origin txn) = true ∧
      exceptOk (handle_incoming_event_try env store origin e) = true := by
  constructor
  · by_cases ho : origin = ""
    · simp [handle_send_transaction_try, ho, exceptOk]
    · rcases hp : process_pdus env origin txn.pdus store with ⟨results, store2⟩
      simp [handle_send_transaction_try, ho, hp, exceptOk]
  · by_cases ho : e.origin = some origin
    · by_cases hv : validate_event env e = true
      · have hf := validate_true_required env e hv
        have hid : e.event_id.isSome := by
          simp [hasRequiredFields] at hf
          exact hf.1.1.1.1
        rcases Option.isSome_iff_exists.mp hid with ⟨eid, heid⟩
        rcases hg : get_event_by_id store eid with _ | old <;>
          simp [handle_incoming_event_try, ho, hv, heid, hg, exceptOk]
      · rw [Bool.not_eq_true] at hv
        simp [handle_incoming_event_try, ho, hv, exceptOk]
    · simp [handle_incoming_event_try, ho, exceptOk]

/-! ## Claims about `MessageHandler` -/

/-- A client-side store in which every user is joined and a transaction
`txn1` of Alice in the room was already recorded as
`$prev:example.org`. -/
def fixMStoreJoin : MStore :=
  { membership := fun _ _ => some "join",
    power_level := fun _ _ => 0,
    redact_level := fun _ => 50,
    txn_map := [(("@alice:example.org", "!room:example.org", "txn1"),
      "$prev:example.org")],
    events := [] }

/-- The same store after Alice left the room. -/
def fixMStoreLeft : MStore :=
  { fixMStoreJoin with membership := fun _ _ => some "leave" }

/-- Counterexample to C1 as stated: two sends with byte-identical
content (and sender, room and type) produce distinct event ids whenever
the fresh random tokens drawn by `secrets.token_urlsafe(32)` differ —
the generated id is not a function of the event content. -/
theorem event_id_not_content_addressed_counterexample :
    sent_event_id (send_message fixMStoreJoin "example.org" "randomA"
        "!room:example.org" "@alice:example.org" "m.text"
        [("body", "hello")] none) = some "$randomA:example.org" ∧
      sent_event_id (send_message fixMStoreJoin "example.org" "randomB"
        "!room:example.org" "@alice:example.org" "m.text"
        [("body", "hello")] none) = some "$randomB:example.org" ∧
      ("$randomA:example.org" : String) ≠ "$randomB:example.org" :=
  ⟨by decide, by decide, by decide⟩

/-- Claim C1 (amended): event ids are generated from a fresh random
token plus the originating server name, in the format
`$<token>:<server_name>`, independently of the event content: for a
joined sender the id of a freshly sent message is fully determined by
the token and the hostname, whatever the content. -/
theorem event_id_random_not_content (store : MStore)
    (hostname token room_id sender_id message_type : String)
    (content : List (String × String))
    (h : store.membership sender_id room_id = some "join") :
    sent_event_id (send_message store hostname token room_id sender_id
        message_type content none) =
      some ("$" ++ token ++ ":" ++ hostname) := by
  simp [send_message, h, txnTruthy, sent_event_id, message_generate_event_id,
    Except.toOption]

/-- Witness for C1 (amended): a concrete send yields the id built from
the token and hostname. -/
theorem event_id_random_not_content_witness :
    fixMStoreJoin.membership "@alice:example.org" "!room:example.org" =
        some "join" ∧
      sent_event_id (send_message fixMStoreJoin "example.org" "tokenZ"
          "!room:example.org" "@alice:example.org" "m.text"
          [("body", "hey")] none) =
        some ("$" ++ "tokenZ" ++ ":" ++ "example.org") :=
  ⟨rfl, event_id_random_not_content fixMStoreJoin "example.org" "tokenZ"
    "!room:example.org" "@alice:example.org" "m.text" [("body", "hey")] rfl⟩

/-- Counterexample to C10 as stated: the membership check runs before
the transaction-id lookup, so a sender who has left the room gets a
`ValueError` even though an event for `(sender, room, txn_id)` was
already recorded — `send_message` does not return the previously
stored event id. -/
theorem txn_idempotency_counterexample :
    get_event_by_txn_id fixMStoreLeft "@alice:example.org"
        "!room:example.org" "txn1" = some "$prev:example.org" ∧
      sent_event_id (send_message fixMStoreLeft "example.org" "tok"
        "!room:example.org" "@alice:example.org" "m.text" []
        (some "txn1")) = none :=
  ⟨by decide, by decide⟩

/-- Claim C10 (amended): client sends are idempotent per transaction id
provided the sender is still joined: with membership `join`, a
non-empty `txn_id` whose mapping is already recorded makes
`send_message` return the previously stored event id without creating
or storing a new event. -/
theorem txn_idempotent (store : MStore)
    (hostname token room_id sender_id message_type : String)
    (content : List (String × String)) (t eid : String)
    (h1 : store.membership sender_id room_id = some "join") (h2 : t ≠ "")
    (h3 : get_event_by_txn_id store sender_id room_id t = some eid) :
    send_message store hostname token room_id sender_id message_type
        content (some t) = Except.ok (eid, store) := by
  simp [send_message, h1, txnTruthy, h2, h3]

/-- Witness for C10 (amended): resending `txn1` returns the recorded
`$prev:example.org` and the unchanged store. -/
theorem txn_idempotent_witness :
    fixMStoreJoin.membership "@alice:example.org" "!room:example.org" =
        some "join" ∧
      ("txn1" : String) ≠ "" ∧
      get_event_by_txn_id fixMStoreJoin "@alice:example.org"
        "!room:example.org" "txn1" = some "$prev:example.org" ∧
      send_message fixMStoreJoin "example.org" "tok" "!room:example.org"
          "@alice:example.org" "m.text" [] (some "txn1") =
        Except.ok ("$prev:example.org", fixMStoreJoin) :=
  ⟨rfl, by decide, by decide,
    txn_idempotent fixMStoreJoin "example.org" "tok" "!room:example.org"
      "@alice:example.org" "m.text" [] "txn1" "$prev:example.org" rfl
      (by decide) (by decide)⟩

/-- Claim C8: redaction is gated by the
sender-owns-event-or-has-redact-power rule — given that the target
event exists, a sender who neither sent it nor reaches the room's
redact power level gets an error (and the redaction is not stored,
since the raised `ValueError` discards the updated store); otherwise a
`m.room.redaction` event pointing at the target is stored and the
target is marked redacted. -/
theorem redact_gated (store : MStore)
    (hostname token room_id sender_id target_event_id : String)
    (reason txn_id : Option String) (tev : MEvent)
    (h : m_get_event_by_id store target_event_id = some tev) :
    (tev.sender ≠ sender_id ∧
        store.power_level sender_id room_id < store.redact_level room_id →
      ∃ msg, redact_message store hostname token room_id sender_id
          target_event_id reason txn_id = Except.error msg) ∧
    (tev.sender = sender_id ∨
        store.redact_level room_id ≤ store.power_level sender_id room_id →
      ∃ st3, redact_message store hostname token room_id sender_id
            target_event_id reason txn_id =
          Except.ok (message_generate_event_id hostname token, st3) ∧
        (∃ ev ∈ st3.events, ev.event_type = "m.room.redaction" ∧
          ev.redacts = some target_event_id ∧
          ev.event_id = message_generate_event_id hostname token) ∧
        (∃ ev ∈ st3.events, ev.event_id = target_event_id ∧
          ev.redacted_by =
            some (message_generate_event_id hostname token))) := by
  constructor
  · intro hc
    refine ⟨"ValueError: Insufficient permissions to redact message", ?_⟩
    simp only [redact_message, h]
    rw [if_pos hc]
  · intro hc
    have hcond : ¬ (tev.sender ≠ sender_id ∧
        store.power_level sender_id room_id < store.redact_level room_id) := by
      rcases hc with hc | hc
      · simp [hc]
      · exact fun hp => absurd hp.2 (not_lt.mpr hc)
    have h2 : store.events.find? (fun e => e.event_id == target_event_id) =
        some tev := h
    have htmem : tev ∈ store.events := List.mem_of_find?_eq_some h2
    have htid0 := List.find?_some h2
    have htid : (tev.event_id == target_event_id) = true := htid0
    refine ⟨m_redact_event
      { store with events := store.events ++
        [{ event_type := "m.room.redaction", room_id := room_id,
           sender := sender_id,
           content := match reason with
             | some r => [("reason", r)]
             | none => [],
           event_id := message_generate_event_id hostname token,
           txn_id := txn_id, redacts := some target_event_id,
           redacted_by := none }] }
      target_event_id (message_generate_event_id hostname token), ?_, ?_, ?_⟩
    · simp only [redact_message, h]
      rw [if_neg hcond]
    · simp only [m_redact_event]
      refine ⟨_, List.mem_map_of_mem _
        (List.mem_append_right _ (List.mem_singleton_self _)), ?_⟩
      by_cases hbe : (message_generate_event_id hostname token ==
          target_event_id) = true <;> simp [hbe]
    · simp only [m_redact_event]
      refine ⟨_, List.mem_map_of_mem _ (List.mem_append_left _ htmem), ?_⟩
      simp [htid, eq_of_beq htid]

/-- A stored message of Alice, target of the redaction scenarios. -/
def fixTarget : MEvent :=
  { event_type := "m.room.message", room_id := "!room:example.org",
    sender := "@alice:example.org",
    content := [("msgtype", "m.text"), ("body", "hi")],
    event_id := "$orig:example.org", txn_id := none, redacts := none,
    redacted_by := none }

/-- A client store holding only `fixTarget`, with redact level 50 and
all power levels 0. -/
def fixRStore : MStore :=
  { membership := fun _ _ => some "join", power_level := fun _ _ => 0,
    redact_level := fun _ => 50, txn_map := [], events := [fixTarget] }

/-- Witness for C8: instantiated at `fixRStore` with Alice redacting
her own message. -/
theorem redact_gated_witness :
    m_get_event_by_id fixRStore "$orig:example.org" = some fixTarget ∧
      ((fixTarget.sender ≠ "@alice:example.org" ∧
          fixRStore.power_level "@alice:example.org" "!room:example.org" <
            fixRStore.redact_level "!room:example.org" →
        ∃ msg, redact_message fixRStore "example.org" "tok"
            "!room:example.org" "@alice:example.org" "$orig:example.org"
            none none = Except.error msg) ∧
      (fixTarget.sender = "@alice:example.org" ∨
          fixRStore.redact_level "!room:example.org" ≤
            fixRStore.power_level "@alice:example.org" "!room:example.org" →
        ∃ st3, redact_message fixRStore "example.org" "tok"
              "!room:example.org" "@alice:example.org" "$orig:example.org"
              none none =
            Except.ok (message_generate_event_id "example.org" "tok", st3) ∧
          (∃ ev ∈ st3.events, ev.event_type = "m.room.redaction" ∧
            ev.redacts = some "$orig:example.org" ∧
            ev.event_id = message_generate_event_id "example.org" "tok") ∧
          (∃ ev ∈ st3.events, ev.event_id = "$orig:example.org" ∧
            ev.redacted_by =
              some (message_generate_event_id "example.org" "tok")))) :=
  ⟨by decide, redact_gated fixRStore "example.org" "tok" "!room:example.org"
    "@alice:example.org" "$orig:example.org" none none fixTarget (by decide)⟩

/-! ## Claim about `RoomHandler._create_power_levels_event` -/

/-- Counterexample to C3 as stated: the default power-level content has
`invite = 50`, not the claimed `invite = 0`. -/
theorem power_defaults_counterexample :
    (create_power_levels_event "!room:example.org" "@creator:example.org"
      none).content.invite ≠ 0 := by decide

/-- Claim C3 (amended): when no override is supplied, the default
power-level configuration is ban=50, kick=50, redact=50, invite=50,
state_default=50, events_default=0, users_default=0, with the room
creator at level 100. -/
theorem power_defaults (room_id creator : String) :
    (create_power_levels_event room_id creator none).content.ban = 50 ∧
    (create_power_levels_event room_id creator none).content.kick = 50 ∧
    (create_power_levels_event room_id creator none).content.redact = 50 ∧
    (create_power_levels_event room_id creator none).content.invite = 50 ∧
    (create_power_levels_event room_id creator none).content.state_default
      = 50 ∧
    (create_power_levels_event room_id creator none).content.events_default
      = 0 ∧
    (create_power_levels_event room_id creator none).content.users_default
      = 0 ∧
    List.lookup creator
      (create_power_levels_event room_id creator none).content.users =
        some 100 := by
  simp [create_power_levels_event, default_power_levels_content, List.lookup]

/-! ## Claim about `StateResolver.Resolve` -/

/-- Permuting the input state sets does not change which slots are
mentioned. -/
theorem slotsOf_perm {sets1 sets2 : List StateSet} (h : sets1.Perm sets2) :
    slotsOf sets1 = slotsOf sets2 :=
  List.toFinset_eq_of_perm _ _ (List.Perm.flatMap_right _ h)

/-- Permuting the input state sets does not change the candidate
winners proposed for any slot. -/
theorem valuesAt_perm {sets1 sets2 : List StateSet} (h : sets1.Perm sets2) :
    valuesAt sets1 = valuesAt sets2 := by
  funext s
  exact List.toFinset_eq_of_perm _ _ (h.filterMap _)

/-- Permuting the input state sets does not change the pass-through
state of the unconflicted slots. -/
theorem unconflictedState_perm {sets1 sets2 : List StateSet}
    (h : sets1.Perm sets2) :
    unconflictedState sets1 = unconflictedState sets2 := by
  funext s
  simp only [unconflictedState, valuesAt_perm h]

/-- Claim C7: state resolution is deterministic and order-insensitive —
`Resolve` yields an identical resolved state for every permutation of
the input state sets, for any auth engine, event table and power
oracle. -/
theorem resolve_perm_invariant (authorize : REvent → ResolvedState → Bool)
    (events : EventMap) (power : String → Int)
    {sets1 sets2 : List StateSet} (h : sets1.Perm sets2) :
    Resolve authorize events power sets1 =
      Resolve authorize events power sets2 := by
  simp only [Resolve, conflictedEvents, conflictedSlots, authDifference,
    slotsOf_perm h, valuesAt_perm h, unconflictedState_perm h]

/-- A permissive auth engine for the witness scenario. -/
def fixAuth : REvent → ResolvedState → Bool := fun _ _ => true

/-- Two conflicting `m.room.topic` events known locally. -/
def fixREvents : EventMap :=
  [("$a:x",
    { sender := "@a:x", etype := "m.room.topic", state_key := some "",
      auth_events := [] }),
   ("$b:x",
    { sender := "@b:x", etype := "m.room.topic", state_key := some "",
      auth_events := [] })]

/-- A flat power oracle. -/
def fixPower : String → Int := fun _ => 0

/-- A state set electing `$a:x` for the topic slot. -/
def fixSet1 : StateSet := [(toLex ("m.room.topic", ""), "$a:x")]

/-- A state set electing `$b:x` for the topic slot. -/
def fixSet2 : StateSet := [(toLex ("m.room.topic", ""), "$b:x")]

/-- Witness for C7: feeding the two conflicting topic state sets in
either order resolves to the same state. -/
theorem resolve_perm_invariant_witness :
    ([fixSet1, fixSet2].Perm [fixSet2, fixSet1]) ∧
      Resolve fixAuth fixREvents fixPower [fixSet1, fixSet2] =
        Resolve fixAuth fixREvents fixPower [fixSet2, fixSet1] :=
  ⟨by decide,
    resolve_perm_invariant fixAuth fixREvents fixPower (by decide)⟩

end Synapse
